import Mathlib

/-!
Verification of the gmt-python binding layer (`gmt/clib/functions.py` and
`gmt/figure.py`).

The native GMT C library is modelled as an oracle (`Native`): it decides the
handle returned by `GMT_Create_Session` and the integer status returned by
`GMT_Call_Module`.  Every invocation of a native entry point is recorded in a
trace of `Event`s, so that properties such as "fails before any native module
call" or "the session is destroyed on every exit path" become statements about
the trace.  Python functions that raise assertion errors are embedded as
functions into `Except String`.
-/

namespace Gmt

/-- Modelled from the spec: the `gmt.clib.constants` module is not under
`src/`.  Per the spec, session creation takes a name, a padding mode, a
session-mode flag and a null print-callback, and a module call takes a mode
flag; only the identity of these constants matters to the claims. -/
def GMT_SESSION_NAME : String := "gmt-python"

/-- Modelled from the spec: default padding mode constant (see
`GMT_SESSION_NAME`). -/
def GMT_PAD_DEFAULT : Nat := 2

/-- Modelled from the spec: external-session mode flag (see
`GMT_SESSION_NAME`). -/
def GMT_SESSION_EXTERNAL : Nat := 2

/-- Modelled from the spec: module-call mode "arguments passed as a single
string" (see `GMT_SESSION_NAME`). -/
def GMT_MODULE_CMD : Int := 0

/-- One invocation of a native GMT entry point, with its arguments and its
result as returned by the native library. -/
inductive Event where
  | create (name : String) (pad : Nat) (mode : Nat) (printFunc : Option Nat)
      (result : Option Nat)
  | callModule (session : Nat) (moduleName : String) (mode : Int) (args : String)
      (status : Option Int)
  | destroy (session : Nat)
deriving DecidableEq

def Event.isCall : Event → Bool
  | .callModule _ _ _ _ _ => true
  | _ => false

def Event.isCreate : Event → Bool
  | .create _ _ _ _ _ => true
  | _ => false

def Event.isDestroy : Event → Bool
  | .destroy _ => true
  | _ => false

/-- The native GMT library as an oracle: `createResult` is the handle
`GMT_Create_Session` returns (`none` is the NULL pointer), and `status`
gives the integer status `GMT_Call_Module` returns for a session, module
name and argument string (`none` models a missing return value). -/
structure Native where
  createResult : Option Nat
  status : Nat → String → String → Option Int

/-- `create_session` from `gmt/clib/functions.py`: invokes
`GMT_Create_Session(GMT_SESSION_NAME, GMT_PAD_DEFAULT, GMT_SESSION_EXTERNAL,
None)`; asserts that the returned handle is not null and returns it. -/
def create_session (env : Native) : List Event × Except String Nat :=
  let session := env.createResult
  ([Event.create GMT_SESSION_NAME GMT_PAD_DEFAULT GMT_SESSION_EXTERNAL none session],
    match session with
    | some h => Except.ok h
    | none => Except.error "Failed creating GMT API pointer using create_session.")

/-- `call_module` from `gmt/clib/functions.py`: invokes
`GMT_Call_Module(session, module, GMT_MODULE_CMD, args)`, asserts the status
is not missing, then asserts it is zero. -/
def call_module (env : Native) (session : Nat) (moduleName args : String) :
    List Event × Except String Unit :=
  let status := env.status session moduleName args
  ([Event.callModule session moduleName GMT_MODULE_CMD args status],
    match status with
    | none => Except.error "Failed returning None."
    | some s =>
      if s = 0 then Except.ok ()
      else Except.error ("Failed with status code " ++ toString s ++ "."))

/-- Modelled from the spec: the `APISession` context manager (`gmt.clib`,
not under `src/`).  Per the spec's scoped-session pattern, it creates the
native session on entry and destroys it on every exit path from the block,
normal completion or error; when session creation itself fails, the block is
never entered.  The body receives the handle and yields its own trace and
outcome. -/
def withAPISession (env : Native) (body : Nat → List Event × Except String Unit) :
    List Event × Except String Unit :=
  let created := create_session env
  match created.2 with
  | Except.error e => (created.1, Except.error e)
  | Except.ok h =>
    (created.1 ++ ((body h).1 ++ [Event.destroy h]), (body h).2)

/-- `figure` from `gmt/figure.py`: opens a scoped session and calls the
`figure` module with the given name and format `-` (which tells `gmt.end`
not to produce any files). -/
def figure (env : Native) (name : String) : List Event × Except String Unit :=
  let fmt := "-"
  withAPISession env (fun session =>
    call_module env session "figure" (name ++ " " ++ fmt))

/-- Concrete native oracle used by witnesses: creation succeeds with handle
1 and every module call returns status 0. -/
def envOk : Native := { createResult := some 1, status := fun _ _ _ => some 0 }

/-- Python's `str.rfind` for a single character: index of the last
occurrence, `-1` when absent. -/
def pyRfind : List Char → Char → Int
  | [], _ => -1
  | a :: rest, c =>
    let r := pyRfind rest c
    if r ≥ 0 then r + 1 else if a = c then 0 else -1

/-- `os.path.splitext` (CPython `posixpath`): split off the extension at the
last dot, provided it lies after the last path separator and the file name
part does not consist solely of leading dots.  The CPython while-loop
returns the split as soon as it finds a character other than a dot between
the start of the file name and the last dot; if all those characters are
dots it falls through and reports no extension. -/
def splitext (p : List Char) : List Char × List Char :=
  let sepIndex := pyRfind p '/'
  let dotIndex := pyRfind p '.'
  if sepIndex < dotIndex then
    let leading := (p.take dotIndex.toNat).drop (sepIndex + 1).toNat
    if leading.all (fun c => c == '.') then (p, [])
    else (p.take dotIndex.toNat, p.drop dotIndex.toNat)
  else (p, [])

/-- The extension of a file name as computed in `Figure.savefig`:
`prefix, ext = os.path.splitext(fname); ext = ext[1:]`. -/
def extOf (fname : String) : String := String.mk ((splitext fname.data).2.drop 1)

/-- The prefix (file name without extension) as computed in
`Figure.savefig`. -/
def baseOf (fname : String) : String := String.mk (splitext fname.data).1

/-- The supported-format table of `Figure.savefig`:
`fmts = dict(png='g', pdf='f', jpg='j', bmp='b', eps='e', tif='t')`. -/
def fmts (ext : String) : Option String :=
  if ext = "png" then some "g"
  else if ext = "pdf" then some "f"
  else if ext = "jpg" then some "j"
  else if ext = "bmp" then some "b"
  else if ext = "eps" then some "e"
  else if ext = "tif" then some "t"
  else none

/-- Python's `str.upper` (ASCII suffices for the single-letter format
codes): upper-case every character. -/
def pyUpper (s : String) : String := String.mk (s.data.map Char.toUpper)

/-- The keyword arguments `Figure.savefig` passes to `Figure.psconvert`:
`self.psconvert(prefix=prefix, fmt=fmt, crop=crop, portrait=portrait)`. -/
structure SavefigCall where
  prefix_ : String
  fmt : String
  crop : Bool
  portrait : Bool
deriving DecidableEq

/-- The argument processing of `Figure.savefig` up to the `psconvert` call:
asserts the orientation is `portrait` or `landscape`, splits the extension,
asserts it is supported, and on `transparent` asserts the extension is `png`
and upper-cases the format code. -/
def savefigArgs (fname orientation : String) (transparent crop : Bool) :
    Except String SavefigCall :=
  if orientation = "portrait" ∨ orientation = "landscape" then
    match fmts (extOf fname) with
    | none => Except.error ("Unknown extension ." ++ extOf fname)
    | some fmt =>
      if transparent then
        if extOf fname = "png" then
          Except.ok ⟨baseOf fname, pyUpper fmt, crop, orientation == "portrait"⟩
        else
          Except.error ("Transparency unavailable for " ++ extOf fname ++
            ", only for png.")
      else Except.ok ⟨baseOf fname, fmt, crop, orientation == "portrait"⟩
  else Except.error ("Invalid orientation " ++ orientation ++ ".")

/-- Modelled from the spec: `_unique_name` delegates to
`tempfile.NamedTemporaryFile` (Python standard library, not under `src/`),
whose contract — relied on by the source's own docstring ("Need a unique
name for each figure") and by the spec — is to return a file name, with the
`gmt-python-` prefix requested by the source, distinct from every name it
has handed out in this process.  We model the generator's per-process state
by the number `k` of names issued so far and let the `k`-th name carry a
suffix determined by `k`, so distinct calls yield distinct names. -/
def namedTemporaryFileName (k : Nat) : String :=
  String.mk ("gmt-python-".data ++ List.replicate k 'a')

/-- `_unique_name` from `gmt/figure.py`: the base name of the temporary
file created by `NamedTemporaryFile` (the model already returns a base
name), at generator state `k`. -/
def _unique_name (k : Nat) : String := namedTemporaryFileName k

/-- The `Figure` class: its only state is the generated figure name
`self._name`, set once in `__init__`. -/
structure Figure where
  _name : String
deriving DecidableEq

/-- `Figure.__init__`, for the figure constructed when the name generator
has already issued `k` names: stores `_unique_name()` in `self._name`. -/
def Figure.init (k : Nat) : Figure := ⟨_unique_name k⟩

/-- Modelled from the spec: `build_arg_string` (`gmt.utils`, not under
`src/`).  Per the spec, kwargs are encoded as a single string emulating
command-line flags: each keyword `k` with value `v` contributes the flag
`-kv`, and the flags are joined by single spaces. -/
def argFrags (kwargs : List (String × String)) : List String :=
  kwargs.map (fun kv => "-" ++ kv.1 ++ kv.2)

/-- Modelled from the spec: the argument string is the space-joined flag
list (see `argFrags`). -/
def build_arg_string (kwargs : List (String × String)) : String :=
  " ".intercalate (argFrags kwargs)

/-- `Figure._preprocess`: calls the `figure` module with the stored name
(so subsequent plotting targets this figure) and returns the kwargs
unchanged; an error from the module call propagates. -/
def Figure._preprocess (env : Native) (fig : Figure)
    (kwargs : List (String × String)) :
    List Event × Except String (List (String × String)) :=
  let r := figure env fig._name
  (r.1, match r.2 with
        | Except.ok _ => Except.ok kwargs
        | Except.error e => Except.error e)

/-- The kwargs-defaulting step of `Figure.psconvert`: crop (`A`) and
portrait (`P`) default to enabled when the caller supplies neither. -/
def psconvertKwargs (kwargs : List (String × String)) :
    List (String × String) :=
  let k1 := if (kwargs.lookup "A").isSome then kwargs else kwargs ++ [("A", "")]
  if (k1.lookup "P").isSome then k1 else k1 ++ [("P", "")]

/-- `Figure.psconvert`: preprocesses (issuing the `figure` module call),
fills the `A` and `P` defaults, then calls the `psconvert` module in a
scoped session with the built argument string. -/
def Figure.psconvert (env : Native) (fig : Figure)
    (kwargs : List (String × String)) : List Event × Except String Unit :=
  let pre := fig._preprocess env kwargs
  match pre.2 with
  | Except.error e => (pre.1, Except.error e)
  | Except.ok kw =>
    let conv := withAPISession env (fun session =>
      call_module env session "psconvert" (build_arg_string (psconvertKwargs kw)))
    (pre.1 ++ conv.1, conv.2)

/-- Modelled from the spec: the `use_alias`/`kwargs_to_strings` decorators
(`gmt.decorators`, not under `src/`).  Per the spec's alias-keyword
translation, the long keyword names of the `savefig` → `psconvert` call map
to the single-letter flags `F`, `T`, `A`, `P`, and a boolean `True` becomes
the empty flag value while `False` omits the flag. -/
def savefigKwargs (a : SavefigCall) : List (String × String) :=
  [("F", a.prefix_), ("T", a.fmt)] ++
    (if a.crop then [("A", "")] else []) ++
    (if a.portrait then [("P", "")] else [])

/-- `Figure.savefig`: validates orientation, extension and transparency
(`savefigArgs`), then forwards to `Figure.psconvert`; a failed assertion
raises before any native invocation, so the trace is empty. -/
def Figure.savefig (env : Native) (fig : Figure) (fname orientation : String)
    (transparent crop : Bool) (kwargs : List (String × String)) :
    List Event × Except String Unit :=
  match savefigArgs fname orientation transparent crop with
  | Except.error e => ([], Except.error e)
  | Except.ok a => fig.psconvert env (savefigKwargs a ++ kwargs)

/-- Concrete figure used by witnesses. -/
def fig0 : Figure := ⟨"fig"⟩

/-- Concrete native oracle used by witnesses: creation returns the NULL
pointer. -/
def envNull : Native := { createResult := none, status := fun _ _ _ => some 0 }

/-- Concrete native oracle used by witnesses: creation succeeds with handle
1 and every module call fails with status 78. -/
def envFail : Native := { createResult := some 1, status := fun _ _ _ => some 78 }

/-- C1: `call_module` returns normally iff the native `GMT_Call_Module`
invocation returns status 0; a nonzero or missing status raises, and the
native invocation is always recorded, so a failing status is never silently
ignored. -/
theorem call_module_ok_iff_status_zero (env : Native) (session : Nat)
    (moduleName args : String) :
    ((call_module env session moduleName args).2 = Except.ok () ↔
      env.status session moduleName args = some 0)
    ∧ (call_module env session moduleName args).1 =
        [Event.callModule session moduleName GMT_MODULE_CMD args
          (env.status session moduleName args)] := by
  constructor
  · unfold call_module
    cases hs : env.status session moduleName args with
    | none => simp
    | some s =>
      simp only []
      constructor
      · intro h
        by_cases h0 : s = 0
        · rw [h0]
        · simp [h0] at h
      · intro h
        injection h with h
        rw [h]
        simp
  · rfl

/-- Witness for C1 at a concrete failing oracle: the call with status 78 is
not accepted, and the native invocation is recorded. -/
theorem call_module_ok_iff_status_zero_witness :
    (((call_module envFail 1 "psbasemap" "-R0/5/0/10 -JM").2 = Except.ok ()) ↔
      envFail.status 1 "psbasemap" "-R0/5/0/10 -JM" = some 0)
    ∧ (call_module envFail 1 "psbasemap" "-R0/5/0/10 -JM").1 =
        [Event.callModule 1 "psbasemap" GMT_MODULE_CMD "-R0/5/0/10 -JM"
          (envFail.status 1 "psbasemap" "-R0/5/0/10 -JM")] :=
  call_module_ok_iff_status_zero envFail 1 "psbasemap" "-R0/5/0/10 -JM"

/-- C4: `create_session` invokes `GMT_Create_Session` with the session name,
padding mode, external-session mode flag and a null print-callback; it
returns the native handle unchanged exactly when that handle is non-null,
and halts with an assertion error when the handle is null. -/
theorem create_session_spec (env : Native) (h : Nat) :
    (create_session env).1 =
      [Event.create GMT_SESSION_NAME GMT_PAD_DEFAULT GMT_SESSION_EXTERNAL none
        env.createResult]
    ∧ ((create_session env).2 = Except.ok h ↔ env.createResult = some h)
    ∧ (env.createResult = none →
        ∃ msg, (create_session env).2 = Except.error msg) := by
  refine ⟨rfl, ?_, ?_⟩
  · unfold create_session
    cases hc : env.createResult with
    | none => simp
    | some g => simp
  · intro hc
    unfold create_session
    rw [hc]
    exact ⟨_, rfl⟩

/-- Witness for C4 at a concrete oracle whose creation returns the NULL
pointer: the arguments are recorded and the call fails. -/
theorem create_session_spec_witness :
    (create_session envNull).1 =
      [Event.create GMT_SESSION_NAME GMT_PAD_DEFAULT GMT_SESSION_EXTERNAL none
        envNull.createResult]
    ∧ ((create_session envNull).2 = Except.ok 1 ↔ envNull.createResult = some 1)
    ∧ (envNull.createResult = none →
        ∃ msg, (create_session envNull).2 = Except.error msg) :=
  create_session_spec envNull 1

theorem isCall_not_isDestroy {e : Event} (h : e.isCall = true) :
    e.isDestroy = false := by
  cases e <;> simp [Event.isCall, Event.isDestroy] at h ⊢

/-- C5: under the scoped-session pattern, when session creation succeeds the
native session is created before the first module call, the body's trace and
outcome are preserved, and the session is destroyed exactly once, on every
exit path (the outcome `rb` may be success or error). -/
theorem withAPISession_lifecycle (env : Native)
    (body : Nat → List Event × Except String Unit) (h : Nat)
    (tb : List Event) (rb : Except String Unit)
    (hc : env.createResult = some h)
    (hb : body h = (tb, rb))
    (hcalls : ∀ e ∈ tb, e.isCall = true) :
    withAPISession env body =
      (Event.create GMT_SESSION_NAME GMT_PAD_DEFAULT GMT_SESSION_EXTERNAL none
          (some h) :: (tb ++ [Event.destroy h]), rb)
    ∧ (withAPISession env body).1.countP (fun e => e.isDestroy) = 1
    ∧ (withAPISession env body).1.head? =
        some (Event.create GMT_SESSION_NAME GMT_PAD_DEFAULT GMT_SESSION_EXTERNAL
          none (some h)) := by
  have hmain : withAPISession env body =
      (Event.create GMT_SESSION_NAME GMT_PAD_DEFAULT GMT_SESSION_EXTERNAL none
          (some h) :: (tb ++ [Event.destroy h]), rb) := by
    simp only [withAPISession, create_session]
    rw [hc]
    simp [hb]
  have h0 : tb.countP (fun e => e.isDestroy) = 0 := by
    rw [List.countP_eq_zero]
    intro e he
    simp [isCall_not_isDestroy (hcalls e he)]
  refine ⟨hmain, ?_, ?_⟩
  · rw [hmain]
    show List.countP (fun e => e.isDestroy)
      (_ :: (tb ++ [Event.destroy h])) = 1
    rw [List.countP_cons, List.countP_append, h0]
    rfl
  · rw [hmain]
    rfl

/-- Witness for C5 at a concrete session body consisting of one module
call. -/
theorem withAPISession_lifecycle_witness :
    withAPISession envOk (fun s => call_module envOk s "figure" "a -") =
      (Event.create GMT_SESSION_NAME GMT_PAD_DEFAULT GMT_SESSION_EXTERNAL none
          (some 1) ::
        ([Event.callModule 1 "figure" GMT_MODULE_CMD "a -" (some 0)] ++
          [Event.destroy 1]), Except.ok ())
    ∧ (withAPISession envOk
        (fun s => call_module envOk s "figure" "a -")).1.countP
          (fun e => e.isDestroy) = 1
    ∧ (withAPISession envOk
        (fun s => call_module envOk s "figure" "a -")).1.head? =
        some (Event.create GMT_SESSION_NAME GMT_PAD_DEFAULT GMT_SESSION_EXTERNAL
          none (some 1)) :=
  withAPISession_lifecycle envOk _ 1
    [Event.callModule 1 "figure" GMT_MODULE_CMD "a -" (some 0)]
    (Except.ok ()) rfl rfl (by decide)

/-- C8: an empty scope (session created and immediately destroyed, no
plotting commands) performs exactly the create and destroy native
invocations: zero module calls, hence no file-producing operations. -/
theorem empty_scope_no_module_calls (env : Native) (h : Nat)
    (hc : env.createResult = some h) :
    withAPISession env (fun _ => ([], Except.ok ())) =
      ([Event.create GMT_SESSION_NAME GMT_PAD_DEFAULT GMT_SESSION_EXTERNAL none
          (some h), Event.destroy h], Except.ok ())
    ∧ (withAPISession env (fun _ => ([], Except.ok ()))).1.filter
        Event.isCall = [] := by
  have hmain : withAPISession env (fun _ => ([], Except.ok ())) =
      ([Event.create GMT_SESSION_NAME GMT_PAD_DEFAULT GMT_SESSION_EXTERNAL none
          (some h), Event.destroy h], Except.ok ()) := by
    simp only [withAPISession, create_session]
    rw [hc]
    simp
  refine ⟨hmain, ?_⟩
  rw [hmain]
  simp [Event.isCall]

/-- Witness for C8 at the concrete oracle `envOk`. -/
theorem empty_scope_no_module_calls_witness :
    withAPISession envOk (fun _ => ([], Except.ok ())) =
      ([Event.create GMT_SESSION_NAME GMT_PAD_DEFAULT GMT_SESSION_EXTERNAL none
          (some 1), Event.destroy 1], Except.ok ())
    ∧ (withAPISession envOk (fun _ => ([], Except.ok ()))).1.filter
        Event.isCall = [] :=
  empty_scope_no_module_calls envOk 1 rfl

theorem fmts_cases {e f : String} (h : fmts e = some f) :
    (e = "png" ∧ f = "g") ∨ (e = "pdf" ∧ f = "f") ∨ (e = "jpg" ∧ f = "j")
    ∨ (e = "bmp" ∧ f = "b") ∨ (e = "eps" ∧ f = "e") ∨ (e = "tif" ∧ f = "t") := by
  unfold fmts at h
  split_ifs at h <;> simp_all

theorem savefigArgs_ok_cases {fname orientation : String} {transparent crop : Bool}
    {a : SavefigCall}
    (h : savefigArgs fname orientation transparent crop = Except.ok a) :
    (orientation = "portrait" ∨ orientation = "landscape")
    ∧ ∃ f, fmts (extOf fname) = some f
      ∧ ((transparent = true ∧ extOf fname = "png"
            ∧ a = ⟨baseOf fname, pyUpper f, crop, orientation == "portrait"⟩)
        ∨ (transparent = false
            ∧ a = ⟨baseOf fname, f, crop, orientation == "portrait"⟩)) := by
  unfold savefigArgs at h
  split at h
  · rename_i hor
    split at h
    · exact absurd h (by simp)
    · rename_i f hf
      split at h
      · rename_i htr
        split at h
        · rename_i hpng
          injection h with h
          exact ⟨hor, f, hf, Or.inl ⟨htr, hpng, h.symm⟩⟩
        · exact absurd h (by simp)
      · rename_i htr
        injection h with h
        exact ⟨hor, f, hf, Or.inr ⟨by simpa using htr, h.symm⟩⟩
  · exact absurd h (by simp)

/-- C2: whenever `Figure.savefig` reaches its `psconvert` call, the format
code it passes is exactly the documented one for the file extension
(png→g, pdf→f, jpg→j, bmp→b, eps→e, tif→t), and an uppercase code arises
only on the png path, namely `G` exactly when `transparent=True` and the
extension is png. -/
theorem savefig_format_codes (fname orientation : String)
    (transparent crop : Bool) (a : SavefigCall)
    (h : savefigArgs fname orientation transparent crop = Except.ok a) :
    (extOf fname = "png" → a.fmt = if transparent then "G" else "g")
    ∧ (extOf fname = "pdf" → a.fmt = "f")
    ∧ (extOf fname = "jpg" → a.fmt = "j")
    ∧ (extOf fname = "bmp" → a.fmt = "b")
    ∧ (extOf fname = "eps" → a.fmt = "e")
    ∧ (extOf fname = "tif" → a.fmt = "t")
    ∧ (a.fmt = "G" ↔ (transparent = true ∧ extOf fname = "png")) := by
  obtain ⟨hor, f, hf, hcase⟩ := savefigArgs_ok_cases h
  rcases hcase with ⟨htr, hpng, ha⟩ | ⟨htr, ha⟩
  · have hg : f = "g" := by
      rw [hpng] at hf
      simpa [fmts] using hf.symm
    have hG : pyUpper "g" = "G" := by decide
    subst ha htr hg
    refine ⟨fun _ => by simp [hG], ?_, ?_, ?_, ?_, ?_, by simp [hG, hpng]⟩
    all_goals (intro he; rw [he] at hpng; exact absurd hpng (by decide))
  · subst ha htr
    have hfG : f ≠ "G" := by
      rcases fmts_cases hf with ⟨_, hf⟩ | ⟨_, hf⟩ | ⟨_, hf⟩ | ⟨_, hf⟩
        | ⟨_, hf⟩ | ⟨_, hf⟩ <;> (subst hf; decide)
    refine ⟨?_, ?_, ?_, ?_, ?_, ?_, by simp [hfG]⟩
    all_goals (intro he; rw [he] at hf; simpa [fmts] using hf.symm)

/-- Witness for C2: saving `map.png` with `transparent=True` yields the
format code `G`. -/
theorem savefig_format_codes_witness :
    (extOf "map.png" = "png" →
      (⟨"map", "G", true, true⟩ : SavefigCall).fmt = if true then "G" else "g")
    ∧ (extOf "map.png" = "pdf" → (⟨"map", "G", true, true⟩ : SavefigCall).fmt = "f")
    ∧ (extOf "map.png" = "jpg" → (⟨"map", "G", true, true⟩ : SavefigCall).fmt = "j")
    ∧ (extOf "map.png" = "bmp" → (⟨"map", "G", true, true⟩ : SavefigCall).fmt = "b")
    ∧ (extOf "map.png" = "eps" → (⟨"map", "G", true, true⟩ : SavefigCall).fmt = "e")
    ∧ (extOf "map.png" = "tif" → (⟨"map", "G", true, true⟩ : SavefigCall).fmt = "t")
    ∧ ((⟨"map", "G", true, true⟩ : SavefigCall).fmt = "G" ↔
        (true = true ∧ extOf "map.png" = "png")) :=
  savefig_format_codes "map.png" "portrait" true true ⟨"map", "G", true, true⟩
    rfl

/-- C3: `Figure.savefig` with an orientation outside
{portrait, landscape} or an extension outside the supported table fails by
assertion with an empty native trace, so no native module call is made. -/
theorem savefig_invalid_fails_before_native (env : Native) (fig : Figure)
    (fname orientation : String) (transparent crop : Bool)
    (kwargs : List (String × String))
    (h : ¬(orientation = "portrait" ∨ orientation = "landscape")
        ∨ fmts (extOf fname) = none) :
    ∃ msg, fig.savefig env fname orientation transparent crop kwargs =
      ([], Except.error msg) := by
  have hargs : ∃ msg, savefigArgs fname orientation transparent crop =
      Except.error msg := by
    unfold savefigArgs
    rcases h with h | h
    · rw [if_neg h]
      exact ⟨_, rfl⟩
    · split
      · rw [h]
        exact ⟨_, rfl⟩
      · exact ⟨_, rfl⟩
  obtain ⟨msg, hmsg⟩ := hargs
  refine ⟨msg, ?_⟩
  unfold Figure.savefig
  rw [hmsg]

/-- Witness for C3 at an invalid orientation and at an unsupported
extension. -/
theorem savefig_invalid_fails_before_native_witness :
    (∃ msg, fig0.savefig envOk "map.png" "sideways" false true [] =
      ([], Except.error msg))
    ∧ (∃ msg, fig0.savefig envOk "map.xyz" "portrait" false true [] =
      ([], Except.error msg)) :=
  ⟨savefig_invalid_fails_before_native envOk fig0 "map.png" "sideways" false
      true [] (Or.inl (by decide)),
    savefig_invalid_fails_before_native envOk fig0 "map.xyz" "portrait" false
      true [] (Or.inr (by decide))⟩

/-- C7: `Figure.savefig` with `transparent=True` and a supported extension
other than png raises before any native call (empty trace, no partial
output); with extension png it proceeds, handing `psconvert` the format
code `G`. -/
theorem savefig_transparent_only_png (env : Native) (fig : Figure)
    (fname orientation : String) (crop : Bool)
    (kwargs : List (String × String)) :
    ((fmts (extOf fname)).isSome = true → extOf fname ≠ "png" →
      ∃ msg, fig.savefig env fname orientation true crop kwargs =
        ([], Except.error msg))
    ∧ ((orientation = "portrait" ∨ orientation = "landscape") →
        extOf fname = "png" →
        savefigArgs fname orientation true crop =
          Except.ok ⟨baseOf fname, "G", crop, orientation == "portrait"⟩) := by
  constructor
  · intro _ hnotpng
    cases hres : savefigArgs fname orientation true crop with
    | error msg =>
      refine ⟨msg, ?_⟩
      unfold Figure.savefig
      rw [hres]
    | ok a =>
      exfalso
      obtain ⟨_, f, hf, hcase⟩ := savefigArgs_ok_cases hres
      rcases hcase with ⟨_, hpng, _⟩ | ⟨hfalse, _⟩
      · exact hnotpng hpng
      · exact absurd hfalse (by decide)
  · intro hor hpng
    unfold savefigArgs
    rw [if_pos hor, hpng]
    rfl

/-- Witness for C7: transparency fails for pdf, and succeeds for png with
code `G`. -/
theorem savefig_transparent_only_png_witness :
    (∃ msg, fig0.savefig envOk "map.pdf" "portrait" true true [] =
      ([], Except.error msg))
    ∧ savefigArgs "map.png" "portrait" true true =
        Except.ok ⟨baseOf "map.png", "G", true, "portrait" == "portrait"⟩ :=
  ⟨(savefig_transparent_only_png envOk fig0 "map.pdf" "portrait" true []).1
      (by decide) (by decide),
    (savefig_transparent_only_png envOk fig0 "map.png" "portrait" true []).2
      (Or.inl rfl) (by decide)⟩

/-- C6: figures constructed at distinct points of the process lifetime
receive distinct names from `_unique_name`. -/
theorem unique_figure_names (i j : Nat) (hij : i ≠ j) :
    (Figure.init i)._name ≠ (Figure.init j)._name := by
  intro heq
  apply hij
  have hdata : "gmt-python-".data ++ List.replicate i 'a' =
      "gmt-python-".data ++ List.replicate j 'a' := congrArg String.data heq
  have hlen := congrArg List.length hdata
  simp only [List.length_append, List.length_replicate] at hlen
  omega

/-- Witness for C6: the first two generated figure names differ. -/
theorem unique_figure_names_witness :
    (Figure.init 0)._name ≠ (Figure.init 1)._name :=
  unique_figure_names 0 1 (by decide)

theorem lookup_append_of_none {α β : Type} [BEq α] {l l' : List (α × β)}
    {k : α} (h : l.lookup k = none) : (l ++ l').lookup k = l'.lookup k := by
  induction l with
  | nil => rfl
  | cons a t ih =>
    obtain ⟨ka, va⟩ := a
    simp only [List.cons_append, List.lookup] at h ⊢
    cases hk : (k == ka) with
    | true =>
      rw [hk] at h
      exact Option.noConfusion h
    | false =>
      rw [hk] at h
      exact ih h

theorem lookup_append_of_some {α β : Type} [BEq α] {l l' : List (α × β)}
    {k : α} {v : β} (h : l.lookup k = some v) :
    (l ++ l').lookup k = some v := by
  induction l with
  | nil => exact Option.noConfusion h
  | cons a t ih =>
    obtain ⟨ka, va⟩ := a
    simp only [List.cons_append, List.lookup] at h ⊢
    cases hk : (k == ka) with
    | true =>
      rw [hk] at h
      exact h
    | false =>
      rw [hk] at h
      exact ih h

theorem lookup_mem {α β : Type} [BEq α] [LawfulBEq α] {l : List (α × β)}
    {k : α} {v : β} (h : l.lookup k = some v) : (k, v) ∈ l := by
  induction l with
  | nil => exact Option.noConfusion h
  | cons a t ih =>
    obtain ⟨ka, va⟩ := a
    simp only [List.lookup] at h
    cases hk : (k == ka) with
    | true =>
      rw [hk] at h
      have h' : some va = some v := h
      injection h' with h'
      have hk' : k = ka := eq_of_beq hk
      subst hk'
      subst h'
      exact List.mem_cons_self _ _
    | false =>
      rw [hk] at h
      exact List.mem_cons_of_mem _ (ih h)

/-- The trace of a scoped-session block when creation succeeds: the create
invocation, then the body's native invocations, then the destroy
invocation. -/
theorem withAPISession_fst (env : Native)
    (body : Nat → List Event × Except String Unit) (h : Nat)
    (hc : env.createResult = some h) :
    (withAPISession env body).1 =
      Event.create GMT_SESSION_NAME GMT_PAD_DEFAULT GMT_SESSION_EXTERNAL none
        (some h) :: ((body h).1 ++ [Event.destroy h]) := by
  simp only [withAPISession, create_session]
  rw [hc]
  simp

theorem psconvertKwargs_A (kw : List (String × String)) :
    ∃ vA, (psconvertKwargs kw).lookup "A" = some vA
      ∧ (kw.lookup "A" = none → vA = "") := by
  cases hA : kw.lookup "A" with
  | none =>
    have h1 : (kw ++ [("A", "")]).lookup "A" = some "" := by
      rw [lookup_append_of_none hA]
      rfl
    have hmain : (psconvertKwargs kw).lookup "A" = some "" := by
      simp only [psconvertKwargs]
      rw [hA]
      simp only [Option.isSome_none, Bool.false_eq_true, if_false]
      split
      · exact h1
      · exact lookup_append_of_some h1
    exact ⟨"", hmain, fun _ => rfl⟩
  | some v =>
    have hmain : (psconvertKwargs kw).lookup "A" = some v := by
      simp only [psconvertKwargs]
      rw [hA]
      simp only [Option.isSome_some, if_true]
      split
      · exact hA
      · exact lookup_append_of_some hA
    exact ⟨v, hmain, fun hn => Option.noConfusion hn⟩

theorem psconvertKwargs_P (kw : List (String × String)) :
    ∃ vP, (psconvertKwargs kw).lookup "P" = some vP
      ∧ (kw.lookup "P" = none → vP = "") := by
  cases hP : ((if (kw.lookup "A").isSome then kw
      else kw ++ [("A", "")]).lookup "P") with
  | none =>
    have hmain : (psconvertKwargs kw).lookup "P" = some "" := by
      simp only [psconvertKwargs]
      rw [hP]
      simp only [Option.isSome_none, Bool.false_eq_true, if_false]
      rw [lookup_append_of_none hP]
      rfl
    exact ⟨"", hmain, fun _ => rfl⟩
  | some v =>
    have hv : kw.lookup "P" = some v := by
      by_cases hA : (kw.lookup "A").isSome = true
      · rw [if_pos hA] at hP
        exact hP
      · rw [if_neg hA] at hP
        cases hkw : kw.lookup "P" with
        | none =>
          rw [lookup_append_of_none hkw] at hP
          have hnil : ([(("A" : String), ("" : String))].lookup "P") = none := rfl
          rw [hnil] at hP
          exact Option.noConfusion hP
        | some w =>
          rw [lookup_append_of_some hkw] at hP
          exact hP
    have hcontra : kw.lookup "P" = none → v = "" := fun hn =>
      Option.noConfusion (hv.symm.trans hn)
    have hmain : (psconvertKwargs kw).lookup "P" = some v := by
      simp only [psconvertKwargs]
      rw [hP]
      simp only [Option.isSome_some, if_true]
      exact hP
    exact ⟨v, hmain, hcontra⟩

/-- The full native trace of `figure name` when session creation succeeds
and the `figure` module call returns status 0. -/
theorem figure_trace (env : Native) (name : String) (h : Nat)
    (hc : env.createResult = some h)
    (hfig : env.status h "figure" (name ++ " " ++ "-") = some 0) :
    figure env name =
      ([Event.create GMT_SESSION_NAME GMT_PAD_DEFAULT GMT_SESSION_EXTERNAL none
          (some h),
        Event.callModule h "figure" GMT_MODULE_CMD (name ++ " " ++ "-") (some 0),
        Event.destroy h], Except.ok ()) := by
  simp [figure, withAPISession, create_session, call_module, hc, hfig]

/-- C9: `Figure.psconvert` always passes the crop flag `A` and the portrait
flag `P` in the kwargs and hence in the argument string handed to the
native `psconvert` module; when the caller supplies neither, they are
filled with the empty value (flag enabled) before the module call. -/
theorem psconvert_crop_portrait_defaults (env : Native) (fig : Figure)
    (kw : List (String × String)) (h : Nat)
    (hc : env.createResult = some h)
    (hfig : env.status h "figure" (fig._name ++ " " ++ "-") = some 0) :
    (∃ vA, (psconvertKwargs kw).lookup "A" = some vA
      ∧ ("-" ++ "A" ++ vA) ∈ argFrags (psconvertKwargs kw)
      ∧ (kw.lookup "A" = none → vA = ""))
    ∧ (∃ vP, (psconvertKwargs kw).lookup "P" = some vP
      ∧ ("-" ++ "P" ++ vP) ∈ argFrags (psconvertKwargs kw)
      ∧ (kw.lookup "P" = none → vP = ""))
    ∧ (fig.psconvert env kw).1.filter Event.isCall =
        [Event.callModule h "figure" GMT_MODULE_CMD (fig._name ++ " " ++ "-")
          (some 0),
         Event.callModule h "psconvert" GMT_MODULE_CMD
           (build_arg_string (psconvertKwargs kw))
           (env.status h "psconvert" (build_arg_string (psconvertKwargs kw)))] := by
  obtain ⟨vA, hA1, hA2⟩ := psconvertKwargs_A kw
  obtain ⟨vP, hP1, hP2⟩ := psconvertKwargs_P kw
  refine ⟨⟨vA, hA1, List.mem_map_of_mem _ (lookup_mem hA1), hA2⟩,
    ⟨vP, hP1, List.mem_map_of_mem _ (lookup_mem hP1), hP2⟩, ?_⟩
  simp only [Figure.psconvert, Figure._preprocess]
  rw [figure_trace env fig._name h hc hfig]
  simp [withAPISession, create_session, call_module, hc, Event.isCall]

/-- Witness for C9 at empty caller kwargs. -/
theorem psconvert_crop_portrait_defaults_witness :
    (∃ vA, (psconvertKwargs []).lookup "A" = some vA
      ∧ ("-" ++ "A" ++ vA) ∈ argFrags (psconvertKwargs [])
      ∧ (([] : List (String × String)).lookup "A" = none → vA = ""))
    ∧ (∃ vP, (psconvertKwargs []).lookup "P" = some vP
      ∧ ("-" ++ "P" ++ vP) ∈ argFrags (psconvertKwargs [])
      ∧ (([] : List (String × String)).lookup "P" = none → vP = ""))
    ∧ (fig0.psconvert envOk []).1.filter Event.isCall =
        [Event.callModule 1 "figure" GMT_MODULE_CMD (fig0._name ++ " " ++ "-")
          (some 0),
         Event.callModule 1 "psconvert" GMT_MODULE_CMD
           (build_arg_string (psconvertKwargs []))
           (envOk.status 1 "psconvert" (build_arg_string (psconvertKwargs [])))] :=
  psconvert_crop_portrait_defaults envOk fig0 [] 1 rfl rfl

/-- C10: both `Figure._preprocess` (run before every plotting command) and
`Figure.psconvert` issue, as their first native module call, a `figure`
call with the figure's own stored name and format `-` (which generates no
file). -/
theorem preprocess_first_call_targets_own_figure (env : Native) (fig : Figure)
    (kw : List (String × String)) (h : Nat)
    (hc : env.createResult = some h) :
    ((fig._preprocess env kw).1.filter Event.isCall).head? =
      some (Event.callModule h "figure" GMT_MODULE_CMD (fig._name ++ " " ++ "-")
        (env.status h "figure" (fig._name ++ " " ++ "-")))
    ∧ ((fig.psconvert env kw).1.filter Event.isCall).head? =
      some (Event.callModule h "figure" GMT_MODULE_CMD (fig._name ++ " " ++ "-")
        (env.status h "figure" (fig._name ++ " " ++ "-"))) := by
  have hf1 : (figure env fig._name).1 =
      [Event.create GMT_SESSION_NAME GMT_PAD_DEFAULT GMT_SESSION_EXTERNAL none
          (some h),
        Event.callModule h "figure" GMT_MODULE_CMD (fig._name ++ " " ++ "-")
          (env.status h "figure" (fig._name ++ " " ++ "-")),
        Event.destroy h] := by
    simp only [figure]
    rw [withAPISession_fst env _ h hc]
    rfl
  constructor
  · simp only [Figure._preprocess]
    rw [hf1]
    simp [Event.isCall]
  · simp only [Figure.psconvert, Figure._preprocess]
    cases hr : (figure env fig._name).2 with
    | error e =>
      rw [hf1]
      simp [Event.isCall]
    | ok u =>
      rw [hf1]
      simp [withAPISession, create_session, call_module, hc, Event.isCall]

/-- Witness for C10 at the concrete oracle `envOk`. -/
theorem preprocess_first_call_targets_own_figure_witness :
    ((fig0._preprocess envOk []).1.filter Event.isCall).head? =
      some (Event.callModule 1 "figure" GMT_MODULE_CMD (fig0._name ++ " " ++ "-")
        (some 0))
    ∧ ((fig0.psconvert envOk []).1.filter Event.isCall).head? =
      some (Event.callModule 1 "figure" GMT_MODULE_CMD (fig0._name ++ " " ++ "-")
        (some 0)) :=
  preprocess_first_call_targets_own_figure envOk fig0 [] 1 rfl

end Gmt
